import Mathlib

/-!
Verification development for the `score-gaps-across-assessments` repository.

The repository is a small data-reshaping and presentation pipeline built on
pandas/streamlit.  The definitions below are a shallow embedding of the
relevant Python functions:

* `effect_size_color_scale` (utils_app.py, lines 19-38)
* `color_scale`             (app.py, lines 124-141)
* `custom_color_map`        (app1.py, lines 75-92)
* `create_full_table`       (utils_app.py, lines 40-65), `format_dict` (311-317)
* `var_clean_df`            (utils_app.py, lines 68-127)
* `reorder_columns_by_variable` (utils_app.py, lines 172-199), `order_dict` (327-376)
* filtering / pivoting / column dropping in app.py (lines 58-195) and
  app1.py (lines 95-111)

Python floats are modelled by `ℚ`; a cell value that can be a genuine number,
a float NaN, or the Python object `None` (or any non-numeric object) is
modelled by `CellValue`.  Missing `Cohen's d` entries in a data frame column
are modelled by `Option ℚ` (`none` = NaN).  Fallible Python code (code that
can raise) is modelled with `Except String`.
-/

/-- The seven effect-size severity bands of the specification, plus the
`unclassified` outcome for null / non-numeric input. -/
inductive Band where
  | unclassified
  | negligible
  | small
  | smallModerate
  | moderate
  | moderateLarge
  | large
  | veryLarge
deriving DecidableEq, Repr

/-- A value appearing in a data-frame cell, as seen by the Python colour
functions: a real number, a float NaN, or `None` / any non-numeric object. -/
inductive CellValue where
  | num (q : ℚ)
  | nan
  | null
deriving DecidableEq, Repr

/-- Colour for each band as used by `effect_size_color_scale`
(utils_app.py lines 23-38); `unclassified` yields the empty styling string. -/
def bandColor : Band → String
  | .unclassified => ""
  | .negligible => "background-color: #96D377"
  | .small => "background-color: #D9EAD3"
  | .smallModerate => "background-color: #ECEED0"
  | .moderate => "background-color: #FEF2CC"
  | .moderateLarge => "background-color: #F9DFCC"
  | .large => "background-color: #F4CCCC"
  | .veryLarge => "background-color: #EFB9CC"

/-- Shallow embedding of `effect_size_color_scale(value)` from utils_app.py
lines 19-38.  The Python guard `isinstance(value, (int, float)) and not
pd.isnull(value)` sends `None` / non-numeric objects and NaN to the final
`return ''`; a number runs through the `if/elif` chain on `abs(value)`. -/
def effect_size_color_scale (value : CellValue) : String :=
  match value with
  | .num v =>
    let a := |v|
    if a ≤ 0.2 then "background-color: #96D377"
    else if 0.2 < a ∧ a ≤ 0.4 then "background-color: #D9EAD3"
    else if 0.4 < a ∧ a ≤ 0.6 then "background-color: #ECEED0"
    else if 0.6 < a ∧ a ≤ 0.8 then "background-color: #FEF2CC"
    else if 0.8 < a ∧ a ≤ 1.0 then "background-color: #F9DFCC"
    else if 1.0 < a ∧ a ≤ 1.2 then "background-color: #F4CCCC"
    else if 1.2 < a then "background-color: #EFB9CC"
    else ""
  | .nan => ""
  | .null => ""

/-- Shallow embedding of `color_scale(value)` from app.py lines 124-141.
There is no `isinstance` guard: `abs(None)` raises a `TypeError`
(modelled by `Except.error`), while `abs(nan)` is NaN, every comparison
against NaN is false, and the `else` branch returns white. -/
def color_scale (value : CellValue) : Except String String :=
  match value with
  | .num v =>
    let a := |v|
    Except.ok <|
      if a ≤ 0.2 then "#FFF2CD"
      else if 0.2 < a ∧ a ≤ 0.4 then "#D9EAD3"
      else if 0.4 < a ∧ a ≤ 0.6 then "#ECEED0"
      else if 0.6 < a ∧ a ≤ 0.8 then "#FEF2CC"
      else if 0.8 < a ∧ a ≤ 1.0 then "#F9DFCC"
      else if 1.0 < a ∧ a ≤ 1.2 then "#F4CCCC"
      else if 1.2 < a then "#EFB9CC"
      else "#FFFFFF"
  | .nan => Except.ok "#FFFFFF"
  | .null => Except.error "TypeError: bad operand type for abs()"

/-- Shallow embedding of `custom_color_map(value)` from app1.py lines 75-92.
Like `color_scale` it calls `abs(value)` unguarded, so `None` raises; NaN
falls through every comparison to the `else` branch returning `''`.
Note the first condition is `0 < abs_value <= 0.2`, so the value `0`
also reaches the `else` branch and gets no colour. -/
def custom_color_map (value : CellValue) : Except String String :=
  match value with
  | .num v =>
    let a := |v|
    Except.ok <|
      if 0 < a ∧ a ≤ 0.2 then "background-color: #CFE2F3"
      else if 0.2 < a ∧ a ≤ 0.4 then "background-color: #D9EAD3"
      else if 0.4 < a ∧ a ≤ 0.6 then "background-color: #ECEED0"
      else if 0.6 < a ∧ a ≤ 0.8 then "background-color: #FEF2CC"
      else if 0.8 < a ∧ a ≤ 1.0 then "background-color: #F9DFCC"
      else if 1.0 < a ∧ a ≤ 1.2 then "background-color: #F4CCCC"
      else if 1.2 < a then "background-color: #EFB9CC"
      else ""
  | .nan => Except.ok ""
  | .null => Except.error "TypeError: bad operand type for abs()"

/-- The band reached by the branch structure of `effect_size_color_scale`
on a numeric input (same conditions, band instead of colour string). -/
def effect_size_band (v : ℚ) : Band :=
  let a := |v|
  if a ≤ 0.2 then .negligible
  else if 0.2 < a ∧ a ≤ 0.4 then .small
  else if 0.4 < a ∧ a ≤ 0.6 then .smallModerate
  else if 0.6 < a ∧ a ≤ 0.8 then .moderate
  else if 0.8 < a ∧ a ≤ 1.0 then .moderateLarge
  else if 1.0 < a ∧ a ≤ 1.2 then .large
  else if 1.2 < a then .veryLarge
  else .unclassified

/-- The band reached by the branch structure of `color_scale` on a numeric
input (the final `else`, returning white, corresponds to no band). -/
def color_scale_band (v : ℚ) : Band :=
  let a := |v|
  if a ≤ 0.2 then .negligible
  else if 0.2 < a ∧ a ≤ 0.4 then .small
  else if 0.4 < a ∧ a ≤ 0.6 then .smallModerate
  else if 0.6 < a ∧ a ≤ 0.8 then .moderate
  else if 0.8 < a ∧ a ≤ 1.0 then .moderateLarge
  else if 1.0 < a ∧ a ≤ 1.2 then .large
  else if 1.2 < a then .veryLarge
  else .unclassified

/-- The band reached by the branch structure of `custom_color_map` on a
numeric input; its first condition is `0 < abs_value <= 0.2`. -/
def custom_color_map_band (v : ℚ) : Band :=
  let a := |v|
  if 0 < a ∧ a ≤ 0.2 then .negligible
  else if 0.2 < a ∧ a ≤ 0.4 then .small
  else if 0.4 < a ∧ a ≤ 0.6 then .smallModerate
  else if 0.6 < a ∧ a ≤ 0.8 then .moderate
  else if 0.8 < a ∧ a ≤ 1.0 then .moderateLarge
  else if 1.0 < a ∧ a ≤ 1.2 then .large
  else if 1.2 < a then .veryLarge
  else .unclassified

/-- Colour for each band in the palette of `color_scale` (app.py lines
124-141); its `else` branch paints white, recorded under `unclassified`. -/
def colorScaleHex : Band → String
  | .unclassified => "#FFFFFF"
  | .negligible => "#FFF2CD"
  | .small => "#D9EAD3"
  | .smallModerate => "#ECEED0"
  | .moderate => "#FEF2CC"
  | .moderateLarge => "#F9DFCC"
  | .large => "#F4CCCC"
  | .veryLarge => "#EFB9CC"

/-- Colour for each band in the palette of `custom_color_map` (app1.py lines
75-92); its `else` branch applies no styling. -/
def customColorHex : Band → String
  | .unclassified => ""
  | .negligible => "background-color: #CFE2F3"
  | .small => "background-color: #D9EAD3"
  | .smallModerate => "background-color: #ECEED0"
  | .moderate => "background-color: #FEF2CC"
  | .moderateLarge => "background-color: #F9DFCC"
  | .large => "background-color: #F4CCCC"
  | .veryLarge => "background-color: #EFB9CC"

/-- The band assignment exactly as the specification states it, first match
wins: null/non-numeric is unclassified, `|v| ≤ 0.2` negligible,
`0.2 < |v| ≤ 0.4` small, ..., `|v| > 1.2` very large. -/
def claimBand (v : ℚ) : Band :=
  if |v| ≤ 0.2 then .negligible
  else if 0.2 < |v| ∧ |v| ≤ 0.4 then .small
  else if 0.4 < |v| ∧ |v| ≤ 0.6 then .smallModerate
  else if 0.6 < |v| ∧ |v| ≤ 0.8 then .moderate
  else if 0.8 < |v| ∧ |v| ≤ 1.0 then .moderateLarge
  else if 1.0 < |v| ∧ |v| ≤ 1.2 then .large
  else .veryLarge

/-! ### Fact table model and the pivot engine `var_clean_df` -/

/-- One row of the data frame passed to `var_clean_df` (utils_app.py): it
already carries the derived `Assessment` key together with `Variable`,
`Grouping` and the `Cohen's d` value (`none` = NaN / missing). -/
structure GRow where
  Variable : String
  Assessment : String
  Grouping : String
  d : Option ℚ
deriving DecidableEq, Repr

/-- Code-point lexicographic comparison of character lists, the order pandas
uses when sorting string keys ascending. -/
def charListLt : List Char → List Char → Bool
  | [], [] => false
  | [], _ :: _ => true
  | _ :: _, [] => false
  | a :: as, b :: bs =>
    if a < b then true else if b < a then false else charListLt as bs

/-- Strict code-point order on strings. -/
def strLt (a b : String) : Prop := charListLt a.data b.data = true

instance : DecidableRel strLt := fun a b =>
  instDecidableEqBool (charListLt a.data b.data) true

/-- Reflexive code-point order on strings, used as the sort relation. -/
def strLe (a b : String) : Prop := ¬ strLt b a

instance : DecidableRel strLe := fun _ _ => instDecidableNot

/-- Sorted distinct values of a list of strings.  This models the row/column
index produced by `pandas.pivot_table` / `groupby`, which holds the distinct
key values in ascending order (`sort=True` default). -/
def sortedDedup (xs : List String) : List String :=
  (xs.dedup).insertionSort strLe

/-- Rows whose `Cohen's d` is an actual number.  `pivot_table` with
`aggfunc='first'` and the default `dropna=True` aggregates with
`GroupBy.first`, which skips NaN, and then removes index/column entries
whose every aggregated value is NaN — so rows with a NaN value never
contribute an index entry, a column entry, or a cell. -/
def relevantRows (rows : List GRow) : List GRow :=
  rows.filter (fun r => r.d.isSome)

/-- The row index of `pivot_table(index='Assessment', ...)`: distinct
assessments that carry at least one non-null `Cohen's d`, ascending. -/
def pivotIndex (rows : List GRow) : List String :=
  sortedDedup ((relevantRows rows).map (·.Assessment))

/-- The column index of `pivot_table(columns='Grouping', ...)`: distinct
grouping values that carry at least one non-null `Cohen's d`, ascending. -/
def pivotCols (rows : List GRow) : List String :=
  sortedDedup ((relevantRows rows).map (·.Grouping))

/-- The pivot cell for `(assessment, grouping)`: the first (in input order)
non-null `Cohen's d` among the matching rows (`aggfunc='first'`). -/
def cellAt (rows : List GRow) (a g : String) : Option ℚ :=
  ((relevantRows rows).find? (fun r => r.Assessment == a && r.Grouping == g)).bind (·.d)

/-- `ordered_assessments` from utils_app.py lines 104-108: walk the registry
dictionary entry by entry and keep, in registry order, the assessments that
actually occur in the pivot index. -/
def orderedAssessments (adict : List (String × List String)) (idx : List String) : List String :=
  ((adict.map Prod.snd).flatten).filter (fun a => decide (a ∈ idx))

/-- The categorical sort key given to `sort_values`: the position of the
assessment in the category list, with values outside the categories (which
`pd.Categorical` has turned into NaN) sorting last.  `List.indexOf` returns
`cats.length` for absent values, which is exactly the "last" key. -/
def catKey (cats : List String) (a : String) : Nat :=
  cats.indexOf a

/-- Comparison of categorical sort keys. -/
def catLe (cats : List String) (a b : String) : Prop :=
  catKey cats a ≤ catKey cats b

instance (cats : List String) : DecidableRel (catLe cats) :=
  fun a b => Nat.decLe (catKey cats a) (catKey cats b)

instance (cats : List String) : IsTotal String (catLe cats) :=
  ⟨fun a b => Nat.le_total (catKey cats a) (catKey cats b)⟩

instance (cats : List String) : IsTrans String (catLe cats) :=
  ⟨fun _ _ _ h1 h2 => Nat.le_trans h1 h2⟩

/-- The pivot index after `sort_values('Assessment')` on the categorical
column: known categories ascend by registry position (their codes are
distinct), NaN entries sort last keeping their index order (pandas extracts
NaN positions and appends them unsorted); a stable sort by `catKey`
reproduces both. -/
def sortedIndex (cats idx : List String) : List String :=
  idx.insertionSort (catLe cats)

/-- The `Assessment` label of a row after the column was replaced by
`pd.Categorical(..., categories=cats)`: values outside `cats` become NaN. -/
def rowLabel (cats : List String) (a : String) : Option String :=
  if a ∈ cats then some a else none

/-- The cleaned grid `var_clean_df` builds for one `Variable` group:
`rowLabels` is the `Assessment` column (kept first), `cols` the grouping
columns that survive the `ordered_columns` selection, `cells` the Cohen's d
matrix in that row/column order. -/
structure VarGrid where
  rowLabels : List (Option String)
  cols : List String
  cells : List (List (Option ℚ))
deriving DecidableEq, Repr

/-- The grid for one `Variable` group (utils_app.py lines 93-124): pivot,
reorder rows by the registry categorical, then select `['Assessment'] +`
the groupings of `order_dict[variable]` present among the pivot columns
(groupings outside that list, or every grouping when the variable has no
entry, are not selected). -/
def gridFor (group : List GRow) (adict odict : List (String × List String))
    (v : String) : VarGrid :=
  let idx := pivotIndex group
  let cats := orderedAssessments adict idx
  let sidx := sortedIndex cats idx
  let cols :=
    match odict.lookup v with
    | some lst => lst.filter (fun g => decide (g ∈ pivotCols group))
    | none => []
  { rowLabels := sidx.map (rowLabel cats)
    cols := cols
    cells := sidx.map (fun a => cols.map (fun g => cellAt group a g)) }

/-- Shallow embedding of `var_clean_df(df, assessment_dict, order_dict_param)`
(utils_app.py lines 68-127): group by `Variable` (group keys ascending, as
`groupby` sorts them) and build one cleaned grid per variable. -/
def var_clean_df (rows : List GRow) (adict odict : List (String × List String)) :
    List (String × VarGrid) :=
  (sortedDedup (rows.map (·.Variable))).map
    (fun v => (v, gridFor (rows.filter (fun r => r.Variable == v)) adict odict v))

/-! ### app.py: fact rows, filtering, pivoting, column dropping, loading -/

/-- One row of `merged_data.csv` as used by app.py / app1.py / utils_app.py:
the nine columns of the fact table.  `d` stands for the column named
"Cohen's d" (`none` = empty / NaN). -/
structure FactRow where
  Variable : String
  Subject : String
  Jurisdiction : String
  Year : Int
  Grouping : String
  Mean : ℚ
  SD : ℚ
  N : Int
  d : Option ℚ
deriving DecidableEq, Repr

/-- The derived `Index` column of app.py line 116:
`Subject + ' - ' + Jurisdiction + ' - ' + str(Year)`. -/
def appIndex (r : FactRow) : String :=
  r.Subject ++ " - " ++ r.Jurisdiction ++ " - " ++ toString r.Year

/-- Shallow embedding of the filter in app.py lines 144-150.  When the
subject selection is empty, the code falls back to `merged_df['Subject']
.unique()` — but then matches those *subject* strings against the derived
`Index` column, so in practice nothing matches. -/
def app_filtered_df (rows : List FactRow) (selVars selSubjects : List String) :
    List FactRow :=
  let sel := if selSubjects.isEmpty then (rows.map (·.Subject)).dedup else selSubjects
  rows.filter (fun r => decide (r.Variable ∈ selVars) && decide (appIndex r ∈ sel))

/-- Shallow embedding of the filter in app1.py lines 104-111: here the
empty-subject fallback is matched against the `Subject` column itself, so an
empty subject selection really selects every subject. -/
def app1_filtered_df (rows : List FactRow)
    (selVars selJurs selSubjects : List String) : List FactRow :=
  let sel := if selSubjects.isEmpty then (rows.map (·.Subject)).dedup else selSubjects
  rows.filter (fun r =>
    decide (r.Variable ∈ selVars) && decide (r.Jurisdiction ∈ selJurs) &&
      decide (r.Subject ∈ sel))

/-- The pivoted grid of app.py lines 173-180 just before the column-drop
step: the `Index` label column (strings) plus one column of `Cohen's d`
cells per grouping. -/
structure AppPivot where
  indexCol : List String
  cols : List (String × List (Option ℚ))
deriving DecidableEq, Repr

/-- Whether a column survives `pivot_df.loc[:, (pivot_df != 0).any(axis=0)]`
(app.py line 183) and `df.loc[:, (df != 0.00).any(axis=0)]` (app1.py line 97):
a cell passes the test iff it compares `!= 0`, and a NaN cell compares
`!= 0` as `True` in pandas — so any null keeps the column alive. -/
def keepCol (cells : List (Option ℚ)) : Bool :=
  cells.any (fun c => decide (c ≠ some (0 : ℚ)))

/-- The column-drop step of app.py line 183 applied to the pivoted grid.
The first component tells whether the string-valued `Index` label column is
kept: a string also compares `!= 0` as `True`, so the label column survives
iff there is at least one row. -/
def appDropZero (g : AppPivot) : Bool × List (String × List (Option ℚ)) :=
  (!g.indexCol.isEmpty, g.cols.filter (fun p => keepCol p.2))

/-- Shallow embedding of `load_original_data()` (utils_app.py lines 9-16,
identical copies in app.py lines 58-65 and app1.py lines 11-18): the fetch
result is a status code plus the parsed rows; a non-200 status emits
`st.error(...)` and returns `None`. -/
def load_original_data (status : Nat) (body : List FactRow) :
    Option (List FactRow) × List String :=
  if status == 200 then (some body, [])
  else (none, ["Failed to load data from GitHub."])

/-- Shallow embedding of the top of the app.py script: load the data, then
derive views.  On a failed load `merged_df` is `None` and the very next
statement, `merged_df.loc[:, 'Year'].astype('Int64')` (app.py line 113),
raises `AttributeError` — the script halts before any filtering, pivoting,
classification or formatting touches the data, with the error message
already on screen.  The result is the list of surfaced messages plus either
the filtered fact table (success) or the propagated exception. -/
def app_main (status : Nat) (body : List FactRow)
    (selVars selSubjects : List String) :
    List String × Except String (List FactRow) :=
  match load_original_data status body with
  | (some df, msgs) => (msgs, Except.ok (app_filtered_df df selVars selSubjects))
  | (none, msgs) =>
      (msgs, Except.error "AttributeError: NoneType object has no attribute loc")

/-! ### reorder_columns_by_variable and the static ordering configuration -/

/-- The static per-variable column order `order_dict` of utils_app.py lines
327-376, modelled as an association list in declaration order. -/
def order_dict : List (String × List String) :=
  [("Race/Ethnicity",
    ["Black", "Hispanic", "Asian", "Indigenous/Native",
     "Native Hawaiian/Other Pacific Islander", "Another Race/Ethnicity",
     "Multiple Races/Ethnicities", "No Response"]),
   ("Gender", ["Male", "Another gender", "No Response"]),
   ("Parent Education",
    ["No High School Diploma", "High School Diploma", "Associate Degree",
     "Graduate Degree", "No Response"]),
   ("Family Income",
    ["< $50,000", "$50,000 to $74,999", "$75,000 to $99,999", "> $100,000",
     "No Response"]),
   ("National School Lunch Program eligibility",
    ["Eligible", "Information not available"]),
   ("Citizenship", ["International", "Domestic", "No Response"]),
   ("Home Language", ["Another Language", "English", "No Response"]),
   ("English Proficiency", ["Basic/Fair/Competent", "No Response"])]

/-- Replace the value stored under key `k` in an association list, modelling
the in-place mutation of the list object `order_dict[variable]` in Python:
the dictionary entry is an alias of the mutated list. -/
def updateEntry (od : List (String × List String)) (k : String)
    (v : List String) : List (String × List String) :=
  od.map (fun p => if p.1 == k then (p.1, v) else p)

/-- One iteration of the loop in `reorder_columns_by_variable` (utils_app.py
lines 183-197) over the state (current data-frame columns, current
`order_dict`).  If the variable has an entry, the Python code aliases it as
`order_list`, possibly executes `order_list.insert(0, 'Assessment')` —
mutating the dictionary's list in place — and re-selects the data-frame
columns as `[col for col in order_list if col in pivot_df.columns]`. -/
def reorderStep (variable_ : String)
    (st : List String × List (String × List String)) :
    List String × List (String × List String) :=
  let (cols, od) := st
  match od.lookup variable_ with
  | none => (cols, od)
  | some order_list =>
      let order_list' :=
        if "Assessment" ∈ cols ∧ "Assessment" ∉ order_list then
          "Assessment" :: order_list
        else order_list
      let od' := updateEntry od variable_ order_list'
      (order_list'.filter (fun c => decide (c ∈ cols)), od')

/-- Shallow embedding of `reorder_columns_by_variable(pivot_df,
variables_in_tab, order_dict)` (utils_app.py lines 172-199), tracking the
data-frame columns and the (mutable in Python) `order_dict` through the
loop.  Returns the final column selection and the final dictionary state. -/
def reorder_columns_by_variable (cols : List String)
    (variables_in_tab : List String) (od : List (String × List String)) :
    List String × List (String × List String) :=
  variables_in_tab.foldl (fun st v => reorderStep v st) (cols, od)

/-! ### create_full_table and the display format dictionary -/

/-- The column selection of `create_full_table` (utils_app.py lines 53-54). -/
def full_table_columns : List String :=
  ["Variable", "Subject", "Jurisdiction", "Year", "Grouping",
   "Mean", "SD", "N", "Cohen's d"]

/-- The sort key of `summary_df.sort_values(by=['Variable', 'Jurisdiction',
'Year', 'Grouping'])` (utils_app.py lines 57-60): the column quadruple under
the lexicographic order, string order on the string columns and numeric
order on `Year`. -/
def ftKey (r : FactRow) : String ×ₗ (String ×ₗ (Int ×ₗ String)) :=
  toLex (r.Variable, toLex (r.Jurisdiction, toLex (r.Year, r.Grouping)))

/-- The row comparison performed by that `sort_values` call. -/
def fullTableLe (r s : FactRow) : Prop :=
  ftKey r ≤ ftKey s

instance : DecidableRel fullTableLe :=
  fun r s => inferInstanceAs (Decidable (ftKey r ≤ ftKey s))

instance : IsTrans FactRow fullTableLe :=
  ⟨fun _ _ _ h1 h2 => le_trans h1 h2⟩

instance : IsTotal FactRow fullTableLe :=
  ⟨fun a b => le_total (ftKey a) (ftKey b)⟩

/-- Shallow embedding of `create_full_table(df)` (utils_app.py lines 40-65):
select the nine display columns (already the fields of `FactRow`) and sort
by `(Variable, Jurisdiction, Year, Grouping)` ascending.  The trailing
`astype(int)` on `Year` is the identity here because `Year` is an integer
column of the fact table. -/
def create_full_table (rows : List FactRow) : List FactRow :=
  rows.insertionSort fullTableLe

/-- A display format spec of `format_dict`: `'{:.0f}'` renders with no
decimal places, `'{:.2f}'` with exactly two. -/
inductive FmtSpec where
  | intFmt
  | twoDecFmt
deriving DecidableEq, Repr

/-- The display `format_dict` of utils_app.py lines 311-317: Year and N as
integers, Mean, SD and Cohen's d as fixed two-decimal strings. -/
def format_dict : List (String × FmtSpec) :=
  [("Year", .intFmt), ("Mean", .twoDecFmt), ("SD", .twoDecFmt),
   ("N", .intFmt), ("Cohen's d", .twoDecFmt)]

/-- Rendering of an integer under `'{:.0f}'`. -/
def formatIntStr (n : Int) : String := toString n

/-- The exact rational value displayed by the two-decimal rendering of `q`:
`q` rounded to the nearest hundredth. -/
def twoDecValue (q : ℚ) : ℚ := (round (q * 100) : Int) / 100

/-- Rendering of a rational under `'{:.2f}'`: round to two decimals and
print with exactly two fractional digits. -/
def formatTwoDec (q : ℚ) : String :=
  let n : Int := round (q * 100)
  let m : Nat := n.natAbs
  (if n < 0 then "-" else "") ++ toString (m / 100) ++ "." ++
    (if m % 100 < 10 then "0" else "") ++ toString (m % 100)

/-! ## Helper lemmas about the classifiers -/

/-- `effect_size_color_scale` paints exactly the colour of the band its
branch structure selects. -/
theorem effect_color_eq_band (v : ℚ) :
    effect_size_color_scale (.num v) = bandColor (effect_size_band v) := by
  simp only [effect_size_color_scale, effect_size_band]
  split_ifs <;> rfl

/-- `color_scale` paints exactly the colour of the band its branch structure
selects. -/
theorem color_scale_eq_band (v : ℚ) :
    color_scale (.num v) = .ok (colorScaleHex (color_scale_band v)) := by
  simp only [color_scale, color_scale_band]
  split_ifs <;> rfl

/-- `custom_color_map` paints exactly the colour of the band its branch
structure selects. -/
theorem custom_color_map_eq_band (v : ℚ) :
    custom_color_map (.num v) = .ok (customColorHex (custom_color_map_band v)) := by
  simp only [custom_color_map, custom_color_map_band]
  split_ifs <;> rfl

/-- The branch structure of `effect_size_color_scale` computes the band the
specification describes; in particular its fall-through `return ''` is
unreachable for numeric input. -/
theorem effect_band_eq_claimBand (v : ℚ) : effect_size_band v = claimBand v := by
  simp only [effect_size_band, claimBand]
  split_ifs with h1 h2 h3 h4 h5 h6 h7
  · rfl
  · rfl
  · rfl
  · rfl
  · rfl
  · rfl
  · rfl
  · -- unreachable: the negations force |v| > 1.2, contradicting ¬(1.2 < |v|)
    exfalso
    have a1 : (0.2 : ℚ) < |v| := not_le.mp h1
    have a2 : (0.4 : ℚ) < |v| := by
      rcases not_and_or.mp h2 with h | h
      · exact absurd a1 h
      · exact not_le.mp h
    have a3 : (0.6 : ℚ) < |v| := by
      rcases not_and_or.mp h3 with h | h
      · exact absurd a2 h
      · exact not_le.mp h
    have a4 : (0.8 : ℚ) < |v| := by
      rcases not_and_or.mp h4 with h | h
      · exact absurd a3 h
      · exact not_le.mp h
    have a5 : (1.0 : ℚ) < |v| := by
      rcases not_and_or.mp h5 with h | h
      · exact absurd a4 h
      · exact not_le.mp h
    have a6 : (1.2 : ℚ) < |v| := by
      rcases not_and_or.mp h6 with h | h
      · exact absurd a5 h
      · exact not_le.mp h
    exact h7 a6

/-- `color_scale` and `effect_size_color_scale` use the same thresholds. -/
theorem color_scale_band_eq_effect : color_scale_band = effect_size_band := rfl

/-- Away from zero, `custom_color_map`'s extra `0 < abs_value` conjunct in
its first condition is redundant, and its bands agree with
`effect_size_color_scale`'s. -/
theorem custom_band_eq_effect (v : ℚ) (hv : v ≠ 0) :
    custom_color_map_band v = effect_size_band v := by
  have hpos : (0 : ℚ) < |v| := abs_pos.mpr hv
  have hc : (0 < |v| ∧ |v| ≤ 0.2) = (|v| ≤ 0.2) := by
    rw [eq_iff_iff]
    exact ⟨And.right, fun h => ⟨hpos, h⟩⟩
  simp only [custom_color_map_band, effect_size_band, hc]

/-- The specification's band assignment never returns `unclassified` on a
number. -/
theorem claimBand_mem (v : ℚ) :
    claimBand v ∈ [Band.negligible, Band.small, Band.smallModerate,
      Band.moderate, Band.moderateLarge, Band.large, Band.veryLarge] := by
  simp only [claimBand]
  split_ifs <;> simp

/-! ## Claim theorems -/

/-- C1: for every real input value `v`, the cell classifier
`effect_size_color_scale` assigns (the colour of) the band determined by
`abs v` under the specification's first-match-wins boundary rules; in
particular `0.2` is classified negligible and `1.2` large, each boundary
value belonging to the lower band. -/
theorem c1_classifier_bands :
    (∀ v : ℚ, effect_size_color_scale (.num v) = bandColor (claimBand v))
    ∧ effect_size_color_scale (.num 0.2) = bandColor Band.negligible
    ∧ effect_size_color_scale (.num 1.2) = bandColor Band.large := by
  have key : ∀ v : ℚ, effect_size_color_scale (.num v) = bandColor (claimBand v) := by
    intro v
    rw [effect_color_eq_band, effect_band_eq_claimBand]
  refine ⟨key, ?_, ?_⟩
  · rw [key 0.2]
    have habs : |(0.2 : ℚ)| = 0.2 := abs_of_nonneg (by norm_num)
    have hb : claimBand 0.2 = Band.negligible := by
      rw [claimBand, habs]
      norm_num
    rw [hb]
  · rw [key 1.2]
    have habs : |(1.2 : ℚ)| = 1.2 := abs_of_nonneg (by norm_num)
    have hb : claimBand 1.2 = Band.large := by
      rw [claimBand, habs]
      norm_num
    rw [hb]

/-- C6 counterexample: at the input `0` the three classifier copies do not
place the value in the same band: `custom_color_map` applies no styling
(`0 < abs_value` fails, the unclassified outcome), while
`effect_size_color_scale` and `color_scale` paint their negligible-band
colours. -/
theorem c6_counterexample_zero :
    custom_color_map (.num 0) = .ok ""
    ∧ custom_color_map_band 0 = Band.unclassified
    ∧ effect_size_color_scale (.num 0) = "background-color: #96D377"
    ∧ effect_size_band 0 = Band.negligible
    ∧ color_scale (.num 0) = .ok "#FFF2CD" := by
  refine ⟨?_, ?_, ?_, ?_, ?_⟩ <;>
  · simp only [custom_color_map, custom_color_map_band, effect_size_color_scale,
      effect_size_band, color_scale, abs_zero]
    norm_num

/-- C6 (amended): for every nonzero value the three classifier copies
`effect_size_color_scale`, `color_scale` and `custom_color_map` place the
value in the same severity band (each rendering it in its own palette); at
zero `custom_color_map` alone classifies nothing. -/
theorem c6_band_agreement_off_zero (v : ℚ) (hv : v ≠ 0) :
    effect_size_band v = color_scale_band v
    ∧ custom_color_map_band v = effect_size_band v
    ∧ effect_size_color_scale (.num v) = bandColor (effect_size_band v)
    ∧ color_scale (.num v) = .ok (colorScaleHex (color_scale_band v))
    ∧ custom_color_map (.num v) = .ok (customColorHex (custom_color_map_band v)) :=
  ⟨by rw [color_scale_band_eq_effect], custom_band_eq_effect v hv,
    effect_color_eq_band v, color_scale_eq_band v, custom_color_map_eq_band v⟩

/-- C6 witness: the band agreement instantiated at the nonzero value `3`. -/
theorem c6_band_agreement_off_zero_witness :
    effect_size_band 3 = color_scale_band 3
    ∧ custom_color_map_band 3 = effect_size_band 3
    ∧ effect_size_color_scale (.num 3) = bandColor (effect_size_band 3)
    ∧ color_scale (.num 3) = .ok (colorScaleHex (color_scale_band 3))
    ∧ custom_color_map (.num 3) = .ok (customColorHex (custom_color_map_band 3)) :=
  c6_band_agreement_off_zero 3 (by decide)

/-- C7 counterexample: the classifier copy `color_scale` of app.py raises a
`TypeError` on null input (`abs(None)` is unguarded), so the classifier is
not exception-free over the documented input domain. -/
theorem c7_counterexample_null_raises :
    color_scale CellValue.null
      = Except.error "TypeError: bad operand type for abs()" := rfl

/-- C7 (amended): the shared classifier `effect_size_color_scale` is total:
on every numeric input it lands in one of the seven bands and paints that
band's colour, and on null/NaN input it returns the empty styling
(UNCLASSIFIED, no colour) without raising; `custom_color_map` and
`color_scale` also absorb NaN, but raise a `TypeError` on null input; and
the pivot engine `var_clean_df` yields a grid for every variable of any
input shape. -/
theorem c7_classifier_totality :
    (∀ v : ℚ,
      effect_size_band v ∈ [Band.negligible, Band.small, Band.smallModerate,
        Band.moderate, Band.moderateLarge, Band.large, Band.veryLarge]
      ∧ effect_size_color_scale (.num v) = bandColor (effect_size_band v))
    ∧ effect_size_color_scale CellValue.null = ""
    ∧ effect_size_color_scale CellValue.nan = ""
    ∧ color_scale CellValue.nan = .ok "#FFFFFF"
    ∧ custom_color_map CellValue.nan = .ok ""
    ∧ custom_color_map CellValue.null
        = Except.error "TypeError: bad operand type for abs()"
    ∧ (∀ rows adict odict, (var_clean_df rows adict odict).length
        = (sortedDedup (rows.map (·.Variable))).length) := by
  refine ⟨fun v => ⟨?_, effect_color_eq_band v⟩, rfl, rfl, rfl, rfl, rfl, ?_⟩
  · rw [effect_band_eq_claimBand]
    exact claimBand_mem v
  · intro rows adict odict
    simp [var_clean_df]

/-! ## Helper lemmas about the categorical row sort -/

theorem catKey_eq_length_of_not_mem {cats : List String} {a : String}
    (h : a ∉ cats) : catKey cats a = cats.length :=
  List.indexOf_eq_length.mpr h

theorem catKey_lt_length_of_mem {cats : List String} {a : String}
    (h : a ∈ cats) : catKey cats a < cats.length :=
  List.indexOf_lt_length.mpr h

/-- A list pairwise-sorted by category key splits into a prefix of known
categories and a suffix of unknown ones. -/
theorem sorted_split_known_unknown (cats : List String) :
    ∀ (M : List String), M.Pairwise (catLe cats) →
      ∃ M₁ M₂, M = M₁ ++ M₂ ∧ (∀ x ∈ M₁, x ∈ cats) ∧ (∀ x ∈ M₂, x ∉ cats)
  | [], _ => ⟨[], [], rfl, fun x h => absurd h (List.not_mem_nil x),
      fun x h => absurd h (List.not_mem_nil x)⟩
  | x :: xs, hp => by
    have hx : ∀ y ∈ xs, catLe cats x y := List.rel_of_sorted_cons hp
    have hxs : xs.Pairwise (catLe cats) := hp.of_cons
    by_cases hxc : x ∈ cats
    · obtain ⟨M₁, M₂, heq, h₁, h₂⟩ := sorted_split_known_unknown cats xs hxs
      refine ⟨x :: M₁, M₂, by rw [heq, List.cons_append], ?_, h₂⟩
      intro z hz
      rcases List.mem_cons.mp hz with rfl | hz
      · exact hxc
      · exact h₁ z hz
    · refine ⟨[], x :: xs, rfl, fun z h => absurd h (List.not_mem_nil z), ?_⟩
      intro z hz hzc
      rcases List.mem_cons.mp hz with rfl | hz
      · exact hxc hzc
      · have h1 : catKey cats x ≤ catKey cats z := hx z hz
        have h2 : catKey cats x = cats.length := catKey_eq_length_of_not_mem hxc
        have h3 : catKey cats z < cats.length := catKey_lt_length_of_mem hzc
        omega

/-- A duplicate-free list is pairwise strictly increasing in self-index. -/
theorem pairwise_indexOf_lt {l : List String} (h : l.Nodup) :
    l.Pairwise (fun a b => l.indexOf a < l.indexOf b) := by
  induction l with
  | nil => exact List.Pairwise.nil
  | cons x xs ih =>
    have hx : x ∉ xs := (List.nodup_cons.mp h).1
    have hxs : xs.Nodup := (List.nodup_cons.mp h).2
    refine List.pairwise_cons.mpr ⟨?_, ?_⟩
    · intro y hy
      have hyx : y ≠ x := fun e => hx (e ▸ hy)
      rw [List.indexOf_cons_self, List.indexOf_cons_ne _ (Ne.symm hyx)]
      exact Nat.succ_pos _
    · refine (ih hxs).imp_of_mem ?_
      intro a b ha hb hab
      have hax : a ≠ x := fun e => hx (e ▸ ha)
      have hbx : b ≠ x := fun e => hx (e ▸ hb)
      rw [List.indexOf_cons_ne _ (Ne.symm hax), List.indexOf_cons_ne _ (Ne.symm hbx)]
      exact Nat.succ_lt_succ hab

/-- A sublist of a concatenation that avoids every element of the left part
is a sublist of the right part. -/
theorem sublist_right_of_disjoint :
    ∀ (A : List String) {U B : List String},
      U.Sublist (A ++ B) → (∀ x ∈ U, x ∉ A) → U.Sublist B
  | [], _, _, h, _ => h
  | a :: A', U, B, h, hd => by
    cases h with
    | cons _ h' =>
      exact sublist_right_of_disjoint A' h'
        (fun x hx hxA => hd x hx (List.mem_cons_of_mem a hxA))
    | cons₂ _ h' =>
      exact absurd (List.mem_cons_self a A')
        (hd a (List.mem_cons_self a _))

/-- The categorical row sort in full: sorting a duplicate-free index by
category key puts the categories first, in category order, followed by the
off-category index entries in their index order (the sort is stable on
their shared last-place key, as pandas' NaN handling is). -/
theorem sortedIndex_eq_append {cats idx : List String}
    (hcats : cats.Nodup) (hidx : idx.Nodup) (hsub : ∀ a ∈ cats, a ∈ idx) :
    sortedIndex cats idx
      = cats ++ idx.filter (fun a => decide (a ∉ cats)) := by
  have hperm : List.Perm (sortedIndex cats idx) idx := List.perm_insertionSort _ _
  have hsort : (sortedIndex cats idx).Pairwise (catLe cats) :=
    List.sorted_insertionSort (catLe cats) idx
  obtain ⟨M₁, M₂, heq, h₁, h₂⟩ :=
    sorted_split_known_unknown cats (sortedIndex cats idx) hsort
  have hMnd : (sortedIndex cats idx).Nodup := hperm.nodup_iff.mpr hidx
  have hM₁nd : M₁.Nodup := by
    rw [heq] at hMnd
    exact hMnd.sublist (List.sublist_append_left M₁ M₂)
  have hM₂nd : M₂.Nodup := by
    rw [heq] at hMnd
    exact hMnd.sublist (List.sublist_append_right M₁ M₂)
  -- M₁ and cats have the same members
  have hmem : ∀ a, a ∈ M₁ ↔ a ∈ cats := by
    intro a
    constructor
    · exact h₁ a
    · intro ha
      have : a ∈ sortedIndex cats idx := hperm.mem_iff.mpr (hsub a ha)
      rw [heq, List.mem_append] at this
      rcases this with h | h
      · exact h
      · exact absurd ha (h₂ a h)
  -- M₁ equals cats: both duplicate-free, same members, strictly key-sorted
  have hM₁sorted : M₁.Pairwise (catLe cats) := by
    rw [heq] at hsort
    exact (List.pairwise_append.mp hsort).1
  have hM₁strict : M₁.Pairwise (fun a b => cats.indexOf a < cats.indexOf b) := by
    refine ((hM₁sorted.and hM₁nd).imp_of_mem ?_)
    intro a b ha hb hab
    refine Nat.lt_of_le_of_ne hab.1 ?_
    intro hk
    exact hab.2 ((List.indexOf_inj (h₁ a ha) (h₁ b hb)).mp hk)
  have hcatsort : cats.Pairwise (fun a b => cats.indexOf a < cats.indexOf b) :=
    pairwise_indexOf_lt hcats
  have hM₁cats : M₁ = cats := by
    have hpm : List.Perm M₁ cats :=
      (List.perm_ext_iff_of_nodup hM₁nd hcats).mpr hmem
    exact
      @List.eq_of_perm_of_sorted _ (fun a b => cats.indexOf a < cats.indexOf b)
        ⟨fun a b h1 h2 => absurd h2 (Nat.lt_asymm h1)⟩ _ _ hpm hM₁strict hcatsort
  -- the off-category part of idx is a pairwise-related sublist of idx,
  -- so the stable sort keeps it intact (stability on the shared last key)
  have hU_pw : (idx.filter (fun a => decide (a ∉ cats))).Pairwise (catLe cats) := by
    apply List.pairwise_of_forall_mem_list
    intro a ha b hb
    have ha' : a ∉ cats := of_decide_eq_true (List.mem_filter.mp ha).2
    have hb' : b ∉ cats := of_decide_eq_true (List.mem_filter.mp hb).2
    show catKey cats a ≤ catKey cats b
    rw [catKey_eq_length_of_not_mem ha', catKey_eq_length_of_not_mem hb']
  have hU_sl : (idx.filter (fun a => decide (a ∉ cats))).Sublist (sortedIndex cats idx) :=
    List.sublist_insertionSort hU_pw (List.filter_sublist idx)
  have hUM₂ : (idx.filter (fun a => decide (a ∉ cats))).Sublist M₂ := by
    apply sublist_right_of_disjoint M₁
    · rw [← heq]
      exact hU_sl
    · intro x hx
      have hx' : x ∉ cats := of_decide_eq_true (List.mem_filter.mp hx).2
      rw [hM₁cats]
      exact hx'
  have hUnd : (idx.filter (fun a => decide (a ∉ cats))).Nodup := hidx.filter _
  have hmem₂ : ∀ x, x ∈ idx.filter (fun a => decide (a ∉ cats)) ↔ x ∈ M₂ := by
    intro x
    constructor
    · intro hx
      have hxidx : x ∈ idx := (List.mem_filter.mp hx).1
      have hxc : x ∉ cats := of_decide_eq_true (List.mem_filter.mp hx).2
      have hxM : x ∈ sortedIndex cats idx := hperm.mem_iff.mpr hxidx
      rw [heq, List.mem_append] at hxM
      rcases hxM with h | h
      · exact absurd (h₁ x h) hxc
      · exact h
    · intro hx
      refine List.mem_filter.mpr ⟨?_, decide_eq_true (h₂ x hx)⟩
      have hxM : x ∈ sortedIndex cats idx := by
        rw [heq]
        exact List.mem_append_right M₁ hx
      exact hperm.mem_iff.mp hxM
  have hUlen : (idx.filter (fun a => decide (a ∉ cats))).length = M₂.length :=
    ((List.perm_ext_iff_of_nodup hUnd hM₂nd).mpr hmem₂).length_eq
  have hUM₂eq : idx.filter (fun a => decide (a ∉ cats)) = M₂ :=
    hUM₂.eq_of_length hUlen
  rw [heq, hM₁cats, hUM₂eq]

/-- Sorting a duplicate-free list by category key and then relabelling
produces the categories first (in category order, as `some`) and the
off-category entries after them (as `none`). -/
theorem sortedIndex_map_rowLabel {cats idx : List String}
    (hcats : cats.Nodup) (hidx : idx.Nodup) (hsub : ∀ a ∈ cats, a ∈ idx) :
    (sortedIndex cats idx).map (rowLabel cats)
      = cats.map some ++ List.replicate (idx.length - cats.length) none := by
  have hUlen : cats.length + (idx.filter (fun a => decide (a ∉ cats))).length
      = idx.length := by
    have hp : (sortedIndex cats idx).length = idx.length :=
      (List.perm_insertionSort (catLe cats) idx).length_eq
    rw [sortedIndex_eq_append hcats hidx hsub, List.length_append] at hp
    exact hp
  rw [sortedIndex_eq_append hcats hidx hsub, List.map_append]
  congr 1
  · apply List.map_congr_left
    intro a ha
    simp [rowLabel, ha]
  · have hnone : ∀ b ∈ (idx.filter (fun a => decide (a ∉ cats))).map (rowLabel cats),
        b = none := by
      intro b hb
      obtain ⟨a, ha, rfl⟩ := List.mem_map.mp hb
      have : a ∉ cats := of_decide_eq_true (List.mem_filter.mp ha).2
      simp [rowLabel, this]
    rw [List.eq_replicate_of_mem hnone, List.length_map]
    congr 1
    omega

theorem sortedDedup_nodup (xs : List String) : (sortedDedup xs).Nodup :=
  (List.perm_insertionSort _ _).nodup_iff.mpr (List.nodup_dedup xs)

theorem orderedAssessments_subset (adict : List (String × List String))
    (idx : List String) : ∀ a ∈ orderedAssessments adict idx, a ∈ idx := by
  intro a ha
  exact of_decide_eq_true (List.mem_filter.mp ha).2

/-- C2 counterexample, refuting each asserted part of the row ordering on
one four-row input.  The rows carry, in this encounter order, the unknown
assessments `ZZB - US - 2000` (d = 1) and `ZZA - US - 2001` (d = 2), the
registry assessment `SAT - US - 2023` (d = 3), and the registry assessment
`GRE - US - 2023` with a null d.  The output grid shows: (a) the rows of
both unknown assessments have lost their Assessment labels to null
(`pd.Categorical` maps off-category values to NaN), violating "every output
row keeps its Assessment label"; (b) those rows appear in the pivot index's
sorted order — the d = 2 row of `ZZA` before the d = 1 row of `ZZB` — not
in first-encountered order, which had `ZZB` first; and (c) the registry
assessment `GRE - US - 2023`, though present in the input, has no row at
all (`pivot_table(dropna=True)` drops an index value whose every Cohen's d
is null), violating "no Assessment present in the input is dropped". -/
theorem c2_counterexample :
    (var_clean_df
      [⟨"Gender", "ZZB - US - 2000", "Male", some 1⟩,
       ⟨"Gender", "ZZA - US - 2001", "Male", some 2⟩,
       ⟨"Gender", "SAT - US - 2023", "Male", some 3⟩,
       ⟨"Gender", "GRE - US - 2023", "Male", none⟩]
      [("GRE", ["GRE - US - 2023"]), ("SAT", ["SAT - US - 2023"])]
      order_dict).map (fun p => (p.1, p.2.rowLabels, p.2.cells))
    = [("Gender", ([some "SAT - US - 2023", none, none],
        [[some 3], [some 2], [some 1]]))] := by decide

/-- C2 (amended): for every partition, the grid has one row per assessment
of the pivot index — the assessments with at least one non-null Cohen's d
in the partition, every other assessment (registry member or not) having
been dropped by the pivot.  The row sequence is exactly the registry
assessments of that index, in registry order, followed by the index's
off-registry assessments in the index's own order: the first conjunct pins
that assessment sequence, the second the Assessment labels (registry rows
keep theirs, off-registry rows get null), the third the cell rows in the
same sequence, and the fourth the row count. -/
theorem c2_row_order (group : List GRow) (adict odict : List (String × List String))
    (v : String) (hnd : (orderedAssessments adict (pivotIndex group)).Nodup) :
    sortedIndex (orderedAssessments adict (pivotIndex group)) (pivotIndex group)
      = orderedAssessments adict (pivotIndex group)
        ++ (pivotIndex group).filter
            (fun a => decide (a ∉ orderedAssessments adict (pivotIndex group)))
    ∧ (gridFor group adict odict v).rowLabels
      = (orderedAssessments adict (pivotIndex group)).map some
        ++ List.replicate ((pivotIndex group).length
            - (orderedAssessments adict (pivotIndex group)).length) none
    ∧ (gridFor group adict odict v).cells
      = (orderedAssessments adict (pivotIndex group)
          ++ (pivotIndex group).filter
              (fun a => decide (a ∉ orderedAssessments adict (pivotIndex group)))).map
          (fun a => (gridFor group adict odict v).cols.map (fun g => cellAt group a g))
    ∧ (gridFor group adict odict v).rowLabels.length = (pivotIndex group).length := by
  have hidx : (pivotIndex group).Nodup := sortedDedup_nodup _
  have hsub := orderedAssessments_subset adict (pivotIndex group)
  have h1 := sortedIndex_eq_append hnd hidx hsub
  refine ⟨h1, sortedIndex_map_rowLabel hnd hidx hsub, ?_, ?_⟩
  · show (sortedIndex _ _).map _ = _
    rw [h1]
    rfl
  · show ((sortedIndex _ _).map (rowLabel _)).length = _
    rw [List.length_map]
    exact (List.perm_insertionSort _ _).length_eq

/-- C2 witness: the amended row-order law at a two-row input with one
registry and one unknown assessment. -/
theorem c2_row_order_witness :
    (orderedAssessments [("SAT", ["SAT - US - 2023"])]
      (pivotIndex [⟨"Gender", "ZZZ - US - 2000", "Male", some 1⟩,
        ⟨"Gender", "SAT - US - 2023", "Male", some 2⟩])).Nodup
    ∧ (sortedIndex
          (orderedAssessments [("SAT", ["SAT - US - 2023"])]
            (pivotIndex [⟨"Gender", "ZZZ - US - 2000", "Male", some 1⟩,
              ⟨"Gender", "SAT - US - 2023", "Male", some 2⟩]))
          (pivotIndex [⟨"Gender", "ZZZ - US - 2000", "Male", some 1⟩,
            ⟨"Gender", "SAT - US - 2023", "Male", some 2⟩])
        = orderedAssessments [("SAT", ["SAT - US - 2023"])]
            (pivotIndex [⟨"Gender", "ZZZ - US - 2000", "Male", some 1⟩,
              ⟨"Gender", "SAT - US - 2023", "Male", some 2⟩])
          ++ (pivotIndex [⟨"Gender", "ZZZ - US - 2000", "Male", some 1⟩,
              ⟨"Gender", "SAT - US - 2023", "Male", some 2⟩]).filter
              (fun a => decide (a ∉ orderedAssessments [("SAT", ["SAT - US - 2023"])]
                (pivotIndex [⟨"Gender", "ZZZ - US - 2000", "Male", some 1⟩,
                  ⟨"Gender", "SAT - US - 2023", "Male", some 2⟩])))
        ∧ (gridFor [⟨"Gender", "ZZZ - US - 2000", "Male", some 1⟩,
            ⟨"Gender", "SAT - US - 2023", "Male", some 2⟩]
            [("SAT", ["SAT - US - 2023"])] order_dict "Gender").rowLabels
          = (orderedAssessments [("SAT", ["SAT - US - 2023"])]
              (pivotIndex [⟨"Gender", "ZZZ - US - 2000", "Male", some 1⟩,
                ⟨"Gender", "SAT - US - 2023", "Male", some 2⟩])).map some
            ++ List.replicate
                ((pivotIndex [⟨"Gender", "ZZZ - US - 2000", "Male", some 1⟩,
                  ⟨"Gender", "SAT - US - 2023", "Male", some 2⟩]).length
                - (orderedAssessments [("SAT", ["SAT - US - 2023"])]
                    (pivotIndex [⟨"Gender", "ZZZ - US - 2000", "Male", some 1⟩,
                      ⟨"Gender", "SAT - US - 2023", "Male", some 2⟩])).length) none
        ∧ (gridFor [⟨"Gender", "ZZZ - US - 2000", "Male", some 1⟩,
            ⟨"Gender", "SAT - US - 2023", "Male", some 2⟩]
            [("SAT", ["SAT - US - 2023"])] order_dict "Gender").cells
          = (orderedAssessments [("SAT", ["SAT - US - 2023"])]
              (pivotIndex [⟨"Gender", "ZZZ - US - 2000", "Male", some 1⟩,
                ⟨"Gender", "SAT - US - 2023", "Male", some 2⟩])
              ++ (pivotIndex [⟨"Gender", "ZZZ - US - 2000", "Male", some 1⟩,
                  ⟨"Gender", "SAT - US - 2023", "Male", some 2⟩]).filter
                  (fun a => decide (a ∉ orderedAssessments
                    [("SAT", ["SAT - US - 2023"])]
                    (pivotIndex [⟨"Gender", "ZZZ - US - 2000", "Male", some 1⟩,
                      ⟨"Gender", "SAT - US - 2023", "Male", some 2⟩])))).map
              (fun a => (gridFor [⟨"Gender", "ZZZ - US - 2000", "Male", some 1⟩,
                  ⟨"Gender", "SAT - US - 2023", "Male", some 2⟩]
                  [("SAT", ["SAT - US - 2023"])] order_dict "Gender").cols.map
                (fun g => cellAt [⟨"Gender", "ZZZ - US - 2000", "Male", some 1⟩,
                  ⟨"Gender", "SAT - US - 2023", "Male", some 2⟩] a g))
        ∧ (gridFor [⟨"Gender", "ZZZ - US - 2000", "Male", some 1⟩,
            ⟨"Gender", "SAT - US - 2023", "Male", some 2⟩]
            [("SAT", ["SAT - US - 2023"])] order_dict "Gender").rowLabels.length
          = (pivotIndex [⟨"Gender", "ZZZ - US - 2000", "Male", some 1⟩,
              ⟨"Gender", "SAT - US - 2023", "Male", some 2⟩]).length) :=
  ⟨by decide, c2_row_order _ _ order_dict "Gender" (by decide)⟩

/-- C3 counterexample: a Grouping value ("Nonbinary") present in the data
but absent from `order_dict['Gender']` is dropped from the grid, not
appended as a trailing column. -/
theorem c3_counterexample :
    (var_clean_df
      [⟨"Gender", "SAT - US - 2023", "Male", some 1⟩,
       ⟨"Gender", "SAT - US - 2023", "Nonbinary", some 3⟩]
      [("SAT", ["SAT - US - 2023"])] order_dict).map (fun p => (p.1, p.2.cols))
    = [("Gender", ["Male"])] := by decide

/-- C3 (amended): after the Assessment label column, the grid's column set
is exactly the intersection of the registry list `order_dict[Variable]` with
the groupings present in the pivot, kept in registry order; groupings
outside the registry list are dropped, and a Variable with no registry
entry keeps no grouping column at all. -/
theorem c3_column_selection (group : List GRow)
    (adict odict : List (String × List String)) (v : String)
    (lst : List String) :
    (odict.lookup v = some lst → lst.Nodup →
      ((∀ g, g ∈ (gridFor group adict odict v).cols
          ↔ g ∈ lst ∧ g ∈ pivotCols group)
        ∧ (gridFor group adict odict v).cols.Pairwise
            (fun a b => lst.indexOf a < lst.indexOf b)))
    ∧ (odict.lookup v = none → (gridFor group adict odict v).cols = []) := by
  constructor
  · intro hl hnd
    have hcols : (gridFor group adict odict v).cols
        = lst.filter (fun g => decide (g ∈ pivotCols group)) := by
      simp [gridFor, hl]
    constructor
    · intro g
      rw [hcols, List.mem_filter]
      simp
    · rw [hcols]
      exact (pairwise_indexOf_lt hnd).sublist (List.filter_sublist lst)
  · intro hl
    simp [gridFor, hl]

/-- C3 witness: the column membership law at the counterexample input. -/
theorem c3_column_selection_witness :
    order_dict.lookup "Gender" = some ["Male", "Another gender", "No Response"]
    ∧ ("Male" ∈ (gridFor
          [⟨"Gender", "SAT - US - 2023", "Male", some 1⟩,
           ⟨"Gender", "SAT - US - 2023", "Nonbinary", some 3⟩]
          [("SAT", ["SAT - US - 2023"])] order_dict "Gender").cols
        ↔ "Male" ∈ ["Male", "Another gender", "No Response"]
          ∧ "Male" ∈ pivotCols
              [⟨"Gender", "SAT - US - 2023", "Male", some 1⟩,
               ⟨"Gender", "SAT - US - 2023", "Nonbinary", some 3⟩]) :=
  ⟨by decide,
    ((c3_column_selection _ _ order_dict "Gender"
      ["Male", "Another gender", "No Response"]).1 (by decide) (by decide)).1 "Male"⟩

/-- C4 counterexample: in the column-drop step `(pivot_df != 0).any(axis=0)`
a column whose cells are all null-or-zero (here `[0, NaN]`) is kept, because
NaN compares `!= 0` as true in pandas — so "every value null or exactly zero
implies dropped" fails. -/
theorem c4_counterexample :
    appDropZero
      ⟨["SAT - Total - US - 2023", "ZZZ - X - 2000"],
       [("G1", [some 0, none]), ("G2", [some 1, some 2])]⟩
    = (true, [("G1", [some 0, none]), ("G2", [some 1, some 2])]) := by decide

/-- C4 (amended): a Grouping column survives the drop step iff at least one
of its cells differs from exactly zero, nulls included (equivalently: it is
dropped iff every cell is exactly `0`, so any null keeps it); the Assessment
label column survives iff the grid has at least one row. -/
theorem c4_drop_characterization (g : AppPivot) (p : String × List (Option ℚ))
    (hp : p ∈ g.cols) :
    (p ∈ (appDropZero g).2 ↔ ¬ (∀ c ∈ p.2, c = some 0))
    ∧ ((appDropZero g).1 = true ↔ g.indexCol ≠ []) := by
  constructor
  · rw [appDropZero]
    rw [List.mem_filter]
    simp only [hp, true_and, keepCol, List.any_eq_true, decide_eq_true_eq]
    push_neg
    constructor
    · rintro ⟨c, hc, hne⟩
      exact ⟨c, hc, hne⟩
    · rintro ⟨c, hc, hne⟩
      exact ⟨c, hc, hne⟩
  · rw [appDropZero]
    simp [List.isEmpty_iff]

/-- C4 witness: the drop law at the counterexample grid and its all-null-or-
zero column. -/
theorem c4_drop_characterization_witness :
    (("G1", [some (0 : ℚ), none]) ∈
        (AppPivot.mk ["SAT - Total - US - 2023", "ZZZ - X - 2000"]
          [("G1", [some 0, none]), ("G2", [some 1, some 2])]).cols)
    ∧ ((("G1", [some (0 : ℚ), none]) ∈
          (appDropZero (AppPivot.mk ["SAT - Total - US - 2023", "ZZZ - X - 2000"]
            [("G1", [some 0, none]), ("G2", [some 1, some 2])])).2
        ↔ ¬ (∀ c ∈ [some (0 : ℚ), none], c = some 0))
      ∧ ((appDropZero (AppPivot.mk ["SAT - Total - US - 2023", "ZZZ - X - 2000"]
            [("G1", [some 0, none]), ("G2", [some 1, some 2])])).1 = true
        ↔ (AppPivot.mk ["SAT - Total - US - 2023", "ZZZ - X - 2000"]
            [("G1", [some 0, none]), ("G2", [some 1, some 2])]).indexCol ≠ [])) :=
  ⟨by decide, c4_drop_characterization _ ("G1", [some 0, none]) (by decide)⟩

/-- C5 counterexample: the app1.py filter with an empty subject selection
falls back to all subjects and returns the whole matching table — not the
empty table the strict policy claims. -/
theorem c5_counterexample :
    app1_filtered_df
      [⟨"Gender", "SAT - Total", "US", 2023, "Male", 500, 100, 1000, some 1⟩]
      ["Gender"] ["US"] []
    = [⟨"Gender", "SAT - Total", "US", 2023, "Male", 500, 100, 1000, some 1⟩] := by
  decide

/-- C5 (amended): app.py's filter with an empty assessment-key selection
returns the empty table whenever no row's assessment key coincides with a
bare subject name (its fallback matches subjects against the `Index`
column); pivoting an empty table yields an empty mapping with no error; and
app1.py's filter instead reduces to the inclusive Variable-and-Jurisdiction
filter. -/
theorem c5_empty_selection (rows : List FactRow) (selVars : List String)
    (hdisj : ∀ r ∈ rows, ∀ s ∈ rows, appIndex r ≠ s.Subject) :
    app_filtered_df rows selVars [] = []
    ∧ (∀ adict odict : List (String × List String), var_clean_df [] adict odict = [])
    ∧ (∀ sv sj : List String, app1_filtered_df rows sv sj []
        = rows.filter (fun r =>
            decide (r.Variable ∈ sv) && decide (r.Jurisdiction ∈ sj))) := by
  refine ⟨?_, fun adict odict => rfl, ?_⟩
  · rw [app_filtered_df]
    simp only [List.isEmpty_nil, if_true]
    rw [List.filter_eq_nil_iff]
    intro r hr
    simp only [Bool.and_eq_true, decide_eq_true_eq, not_and]
    intro _ hmem
    obtain ⟨s, hs, hsub⟩ := List.mem_map.mp (List.mem_dedup.mp hmem)
    exact hdisj r hr s hs hsub.symm
  · intro sv sj
    rw [app1_filtered_df]
    simp only [List.isEmpty_nil, if_true]
    apply List.filter_congr
    intro r hr
    have hmem : decide (r.Subject ∈ (rows.map (·.Subject)).dedup) = true := by
      rw [decide_eq_true_eq, List.mem_dedup]
      exact List.mem_map.mpr ⟨r, hr, rfl⟩
    rw [hmem]
    simp

/-- C5 witness: strictness of the app.py filter on a one-row table. -/
theorem c5_empty_selection_witness :
    (∀ r ∈ ([⟨"Gender", "SAT - Total", "US", 2023, "Male", 500, 100, 1000,
        some 1⟩] : List FactRow),
      ∀ s ∈ ([⟨"Gender", "SAT - Total", "US", 2023, "Male", 500, 100, 1000,
        some 1⟩] : List FactRow), appIndex r ≠ s.Subject)
    ∧ app_filtered_df
        [⟨"Gender", "SAT - Total", "US", 2023, "Male", 500, 100, 1000, some 1⟩]
        ["Gender"] [] = [] :=
  ⟨by decide, (c5_empty_selection _ ["Gender"] (by decide)).1⟩

/-- C8: when the fetch returns a non-success status, the script surfaces the
"Failed to load data from GitHub." message and computes no derived view: the
very next attribute access on the `None` table raises, halting the script
before any filtering, pivoting, classification or formatting. -/
theorem c8_failed_load (status : Nat) (body : List FactRow)
    (selVars selSubjects : List String) (h : status ≠ 200) :
    app_main status body selVars selSubjects
      = (["Failed to load data from GitHub."],
         Except.error "AttributeError: NoneType object has no attribute loc") := by
  have hb : (status == 200) = false := by
    simpa using h
  simp [app_main, load_original_data, hb]

/-- C8 witness: the failed-load behaviour at status 404. -/
theorem c8_failed_load_witness :
    (404 : Nat) ≠ 200
    ∧ app_main 404 [] [] []
      = (["Failed to load data from GitHub."],
         Except.error "AttributeError: NoneType object has no attribute loc") :=
  ⟨by decide, c8_failed_load 404 [] [] [] (by decide)⟩

/-- C10: `reorder_columns_by_variable` mutates the static ordering
configuration: the Python statement `order_list.insert(0, 'Assessment')`
operates on the very list object stored in `order_dict`, so after a call
with the Gender tab the configured `order_dict['Gender']` has gained a
leading `'Assessment'` entry and the dictionary no longer equals its
configured value. -/
theorem c10_order_dict_mutation :
    (reorder_columns_by_variable ["Assessment", "Male"] ["Gender"]
        order_dict).2.lookup "Gender"
      = some ["Assessment", "Male", "Another gender", "No Response"]
    ∧ order_dict.lookup "Gender" = some ["Male", "Another gender", "No Response"]
    ∧ (reorder_columns_by_variable ["Assessment", "Male"] ["Gender"]
        order_dict).2 ≠ order_dict :=
  ⟨by decide, by decide, by decide⟩

/-- The sort-key comparison spelled out: lexicographic on (Variable,
Jurisdiction, Year, Grouping), string order on strings and numeric order on
`Year`. -/
theorem fullTableLe_spelled (r s : FactRow) :
    fullTableLe r s
      ↔ (r.Variable < s.Variable ∨ (r.Variable = s.Variable ∧
          (r.Jurisdiction < s.Jurisdiction ∨ (r.Jurisdiction = s.Jurisdiction ∧
            (r.Year < s.Year ∨ (r.Year = s.Year ∧ r.Grouping ≤ s.Grouping)))))) := by
  simp [fullTableLe, ftKey, Prod.Lex.le_iff]

/-- C9: the full-table formatter keeps exactly the nine display columns,
returns a permutation of the filtered rows (no value altered) sorted
ascending by (Variable, Jurisdiction, Year, Grouping) — lexicographic on
strings, numeric on Year — and the display format dictionary renders Year
and N with zero decimals and Mean, SD and Cohen's d with two, where the
two-decimal value differs from the underlying one by at most half a
hundredth. -/
theorem c9_full_table (rows : List FactRow) :
    List.Perm (create_full_table rows) rows
    ∧ (create_full_table rows).Pairwise (fun r s : FactRow =>
        r.Variable < s.Variable ∨ (r.Variable = s.Variable ∧
          (r.Jurisdiction < s.Jurisdiction ∨ (r.Jurisdiction = s.Jurisdiction ∧
            (r.Year < s.Year ∨ (r.Year = s.Year ∧ r.Grouping ≤ s.Grouping))))))
    ∧ full_table_columns = ["Variable", "Subject", "Jurisdiction", "Year",
        "Grouping", "Mean", "SD", "N", "Cohen's d"]
    ∧ format_dict.lookup "Year" = some FmtSpec.intFmt
    ∧ format_dict.lookup "N" = some FmtSpec.intFmt
    ∧ format_dict.lookup "Mean" = some FmtSpec.twoDecFmt
    ∧ format_dict.lookup "SD" = some FmtSpec.twoDecFmt
    ∧ format_dict.lookup "Cohen's d" = some FmtSpec.twoDecFmt
    ∧ (∀ q : ℚ, |q - twoDecValue q| ≤ 1 / 200)
    ∧ (∀ n : Int, formatIntStr n = toString n) := by
  refine ⟨List.perm_insertionSort _ _, ?_, rfl, rfl, rfl, rfl, rfl, rfl, ?_,
    fun n => rfl⟩
  · exact (List.sorted_insertionSort fullTableLe rows).imp
      (fun h => (fullTableLe_spelled _ _).mp h)
  · intro q
    have key : q - (round (q * 100) : ℚ) / 100
        = (q * 100 - round (q * 100)) / 100 := by
      ring
    rw [twoDecValue, key, abs_div]
    have h100 : |(100 : ℚ)| = 100 := by norm_num
    rw [h100]
    have h := abs_sub_round (q * 100)
    linarith
